import Mathlib

/-!
Verification of the CalorieAILENS meal-analysis backend (Python).

This file gives a shallow embedding in Lean 4 of the decision logic of the
backend's agents and of the orchestrator's staged pipeline, translated from
the Python sources under `backend/`:

* `backend/agents/wellness_coach.py`     — safety post-filter on messages
* `backend/agents/drift_detector.py`     — drift-signal heuristics
* `backend/agents/energy_intervention.py`— stress-signal heuristics
* `backend/agents/goal_guardian.py`      — goal-alignment scoring
* `backend/agents/next_action_agent.py`  — next-action decision tree
* `backend/agents/orchestrator.py`       — staged pipeline with per-stage
  fault isolation, and the streak computation
* `backend/utils/confidence.py`          — overall-confidence derivation

Python floats are modelled as `ℚ` (all arithmetic in these code paths is
exact on decimal constants and small integer ratios), Python strings as
`String` with explicit ASCII-level helpers mirroring `str.lower`, `in`
(substring), `str.split` and `int()`, and Python dicts with a fixed key
set as structures with `Option` fields for keys that may be absent.
Fallible code is embedded in `Except String`, the error string standing
for the Python exception.
-/

namespace CalorieLens

/-! ## Python string primitives -/

/-- ASCII lower-casing of a character, as `str.lower` acts on ASCII input
(identity on everything else, including emoji). -/
def lowerChar (c : Char) : Char :=
  if 65 ≤ c.toNat ∧ c.toNat ≤ 90 then Char.ofNat (c.toNat + 32) else c

/-- Python `s.lower()` on ASCII data. -/
def lowerStr (s : String) : String := ⟨s.data.map lowerChar⟩

/-- Boolean list-prefix test (needle, haystack). -/
def isPrefixB : List Char → List Char → Bool
  | [], _ => true
  | _ :: _, [] => false
  | a :: as, b :: bs => a == b && isPrefixB as bs

/-- Boolean contiguous-sublist test (needle against every suffix). -/
def isSubB (needle : List Char) : List Char → Bool
  | [] => needle.isEmpty
  | b :: bs => isPrefixB needle (b :: bs) || isSubB needle bs

/-- Python `needle in hay` on strings: contiguous substring test. -/
def pyIn (needle hay : String) : Bool := isSubB needle.data hay.data

/-- Head of Python `s.split(sep)[0]`: the characters before the first
occurrence of `sep` (the whole string when `sep` does not occur). -/
def splitHead (s : String) (sep : Char) : String :=
  ⟨s.data.takeWhile (· ≠ sep)⟩

/-- Tail part after the first occurrence of `sep`: `s.split(sep)[1]` exists
iff `sep` occurs, and equals the characters between the first and second
occurrence. -/
def splitSecond? (s : String) (sep : Char) : Option String :=
  match s.data.dropWhile (· ≠ sep) with
  | [] => none
  | _ :: rest => some ⟨rest.takeWhile (· ≠ sep)⟩

/-- Value of a decimal digit character. -/
def digitVal? (c : Char) : Option Nat :=
  if 48 ≤ c.toNat ∧ c.toNat ≤ 57 then some (c.toNat - 48) else none

/-- Natural number denoted by a non-empty all-digit character list. -/
def natOfDigits? : List Char → Option Nat
  | [] => none
  | cs => go cs 0
where
  go : List Char → Nat → Option Nat
    | [], acc => some acc
    | c :: rest, acc =>
      match digitVal? c with
      | some d => go rest (acc * 10 + d)
      | none => none

/-- Python `int(s)`: optional surrounding whitespace, an optional sign and a
non-empty digit string; anything else raises (here: `none`).  Digit-group
underscores are not modelled. -/
def pyInt? (s : String) : Option Int :=
  let isWs : Char → Bool := fun c => c = ' ' || c = '\t' || c = '\n' || c = '\r'
  let t := (s.data.dropWhile isWs).reverse.dropWhile isWs |>.reverse
  match t with
  | '-' :: rest => (natOfDigits? rest).map fun n => -(n : Int)
  | '+' :: rest => (natOfDigits? rest).map fun n => (n : Int)
  | rest => (natOfDigits? rest).map fun n => (n : Int)

/-! ## Wellness Coach safety post-filter (`wellness_coach.py`)

`WellnessCoachAgent.process` scans the model-generated `message` against
`SAFETY_PHRASES_TO_AVOID` (each phrase lower-cased, matched inside the
lower-cased message) and, on the first match, replaces the whole message
with a fixed fallback sentence and stops scanning. -/

/-- The fixed denylist `WellnessCoachAgent.SAFETY_PHRASES_TO_AVOID`. -/
def SAFETY_PHRASES_TO_AVOID : List String :=
  ["too much", "too little", "should cut", "should restrict",
   "bad food", "cheat meal", "guilty", "sinful", "naughty",
   "skinny", "fat", "overweight", "underweight",
   "diet", "lose weight", "burn off", "work off"]

/-- The fixed neutral fallback sentence substituted on a denylist hit. -/
def safeFallbackMessage : String :=
  "Your meal looks balanced! Remember, every meal is an opportunity to nourish yourself. 🌟"

/-- Whether the raw message triggers the safety filter: some denylisted
phrase occurs (case-insensitively) in it. -/
def messageFlagged (message : String) : Bool :=
  SAFETY_PHRASES_TO_AVOID.any fun phrase => pyIn (lowerStr phrase) (lowerStr message)

/-- The safety post-filter of `WellnessCoachAgent.process` (lines 128-134):
the first matching phrase replaces the entire message with
`safeFallbackMessage` and the loop breaks, so the result is the fallback
exactly when some phrase matches, and the untouched message otherwise. -/
def applySafetyFilter (message : String) : String :=
  if messageFlagged message then safeFallbackMessage else message

theorem safeFallback_clean :
    (SAFETY_PHRASES_TO_AVOID.all fun phrase =>
      !(pyIn (lowerStr phrase) (lowerStr safeFallbackMessage))) = true := by
  decide

/-- C3: the final Wellness Coach message never contains a denylisted phrase
(case-insensitively), and whenever the raw model message contains one, the
returned message is exactly the fixed neutral fallback sentence — no
partial redaction. -/
theorem wellness_message_denylist_free (raw : String) :
    ((SAFETY_PHRASES_TO_AVOID.all fun phrase =>
        !(pyIn (lowerStr phrase) (lowerStr (applySafetyFilter raw)))) = true)
    ∧ (messageFlagged raw = true → applySafetyFilter raw = safeFallbackMessage) := by
  constructor
  · by_cases h : messageFlagged raw
    · simp only [applySafetyFilter, h, if_true]
      exact safeFallback_clean
    · simp only [applySafetyFilter, h, if_false]
      simp only [messageFlagged, List.any_eq_true, not_exists, not_and,
        Bool.not_eq_true] at h
      simp only [List.all_eq_true, Bool.not_eq_true']
      exact h
  · intro h
    simp [applySafetyFilter, h]

/-- C3 witness: a raw message containing the denylisted phrase "cheat meal"
is replaced wholesale by the fallback sentence. -/
theorem wellness_message_denylist_free_witness :
    applySafetyFilter "Enjoy this Cheat Meal, you earned it" = safeFallbackMessage :=
  (wellness_message_denylist_free "Enjoy this Cheat Meal, you earned it").2 (by decide)

/-! ## Meal records

A historical/recent meal as the agents read it: a Python dict whose
relevant keys are `created_at`, `time`, `energy_tag` (strings) and
`calories_estimate` (a number).  An absent key is `none`; the agents read
them with `dict.get` defaults.  (Other keys of the dicts — `nutrition`,
`vision`, `context`, `foods` — are never read by the heuristics below.) -/

structure Meal where
  createdAt : Option String
  time : Option String
  energyTag : Option String
  caloriesEstimate : Option ℚ
  deriving DecidableEq

/-- Convenience constructor for a meal that only carries `created_at`. -/
def Meal.atDate (s : String) : Meal := ⟨some s, none, none, none⟩

/-- Keep one copy of each string (Python `set(...)`: only the cardinality
and the member set matter; the result is ordered later by `sorted`). -/
def dedupStrs : List String → List String
  | [] => []
  | s :: rest =>
    let d := dedupStrs rest
    if d.contains s then d else s :: d

/-- Date strings extracted from meals: each truthy `created_at` contributes
its `split("T")[0]` prefix (`_analyze_patterns` lines 107-114 and
`_calculate_streak` lines 321-329; the `try` around the extraction also
skips non-string values, which are not representable here). -/
def extractDateStrs (meals : List Meal) : List String :=
  meals.filterMap fun m =>
    m.createdAt.bind fun s => if s = "" then none else some (splitHead s 'T')

/-- Number of distinct tracked calendar-day strings among the meals. -/
def distinctDayCount (meals : List Meal) : ℕ :=
  (dedupStrs (extractDateStrs meals)).length

/-! ## Drift Detection agent (`drift_detector.py`) -/

/-- Sum of a list of rationals (Python `sum`). -/
def qSum (xs : List ℚ) : ℚ := xs.foldl (· + ·) 0

/-- `DriftDetectionAgent._time_to_hours`: `int(parts[0]) + int(parts[1])/60`
of the colon-split time string; any exception (no second part, or a part
`int()` rejects) yields `12.0`. -/
def timeToHours (s : String) : ℚ :=
  match splitSecond? s ':' with
  | none => 12
  | some p1 =>
    match pyInt? (splitHead s ':'), pyInt? p1 with
    | some a, some b => (a : ℚ) + (b : ℚ) / 60
    | _, _ => 12

/-- The pattern dict built by `DriftDetectionAgent._analyze_patterns`,
restricted to the keys `_detect_drift` reads.  `lowEnergyFrequency` and
`timingVariance`/`timingStability` are `none` when the corresponding key is
not inserted (no energy tags; fewer than two `time` fields).  The
`meal_frequency` histogram (a `Counter` never read by `_detect_drift`) is
not modelled. -/
structure DriftPatterns where
  actualDaysTracked : ℕ
  skippedMealsEstimate : ℚ
  loggingFrequency : ℚ
  lowEnergyFrequency : Option ℚ
  timingVariance : Option ℚ
  timingStability : Option ℚ
  deriving DecidableEq

/-- `DriftDetectionAgent._analyze_patterns` (lines 98-157).  The source's
empty-dict early return for an empty meal list is unreachable here:
`process` only calls it with at least 5 meals, and every key it would
leave absent is `Option`-typed in `DriftPatterns`. -/
def analyzePatterns (meals : List Meal) (_days : ℕ) : DriftPatterns :=
  let mealDates := dedupStrs (extractDateStrs meals)
  let actualDaysTracked := if mealDates.isEmpty then 1 else mealDates.length
  let skipped : ℚ :=
    if 5 ≤ actualDaysTracked then max 0 (3 * (actualDaysTracked : ℚ) - meals.length) else 0
  let loggingFrequency : ℚ := (meals.length : ℚ) / (max actualDaysTracked 1 : ℕ)
  let energyTags := meals.filterMap fun m =>
    m.energyTag.bind fun t => if t = "" then none else some t
  let lowEnergyFrequency :=
    if energyTags.isEmpty then none
    else some (((energyTags.filter (· = "low")).length : ℚ) / energyTags.length)
  let times := (meals.filterMap Meal.time).map timeToHours
  let timingVariance :=
    if 1 < times.length then
      let avg := qSum times / times.length
      some (qSum (times.map fun t => (t - avg) ^ 2) / times.length)
    else none
  ⟨actualDaysTracked, skipped, loggingFrequency, lowEnergyFrequency,
   timingVariance, timingVariance.map fun v => 1 - min (v / 4) 1⟩

/-- Faithful stand-in for the templated f-string in each drift signal's
`pattern` field: the constructor records which template was used and the
numeric data interpolated into it. -/
inductive PatternText where
  | mealSkipping (skipped : ℚ) (days : ℕ)
  | loggingDecline (freq : ℚ)
  | energyIrregularity (frac : ℚ)
  | timingInstability (stability : ℚ)
  deriving DecidableEq

/-- A candidate drift signal: type, severity, pattern text. -/
abbrev DriftSig := String × ℚ × PatternText

/-- Severity of a candidate signal. -/
def sigSeverity (s : DriftSig) : ℚ := s.2.1

/-- The four independently-checked candidate signals of
`DriftDetectionAgent._detect_drift` (lines 172-206), in evaluation order:
meal_skipping, logging_decline, energy_irregularity, timing_instability.
Absent pattern keys read through their `dict.get` defaults
(`low_energy_frequency` → 0, `timing_stability` → 1.0). -/
def driftSignals (p : DriftPatterns) : List DriftSig :=
  (if p.skippedMealsEstimate > 3 then
    [("meal_skipping", min (p.skippedMealsEstimate / 7) 1,
      PatternText.mealSkipping p.skippedMealsEstimate p.actualDaysTracked)]
   else []) ++
  (if p.loggingFrequency < 3/2 then
    [("logging_decline", max 0 (1 - p.loggingFrequency),
      PatternText.loggingDecline p.loggingFrequency)]
   else []) ++
  (if p.lowEnergyFrequency.getD 0 > 2/5 then
    [("energy_irregularity", min ((p.lowEnergyFrequency.getD 0 - 3/10) / (2/5)) 1,
      PatternText.energyIrregularity (p.lowEnergyFrequency.getD 0))]
   else []) ++
  (if p.timingStability.getD 1 < 3/5 then
    [("timing_instability", 1 - p.timingStability.getD 1,
      PatternText.timingInstability (p.timingStability.getD 1))]
   else [])

/-- `DriftDetectionAgent._suggest_intervention`. -/
def suggestIntervention (driftType : String) : String :=
  if driftType = "meal_skipping" then "A lightweight strategy for consistently skipped meals"
  else if driftType = "logging_decline" then "Try a simpler logging approach to reduce friction"
  else if driftType = "energy_irregularity" then "Focus on meal regularity to stabilize your energy"
  else if driftType = "timing_instability" then "Set one anchor meal to build consistency around"
  else "Let's refocus on your core goal"

/-- Python `max(signals, key=severity)`: fold keeping the current best on
ties, so the first maximal element wins. -/
def pickMostSevere (s : DriftSig) (rest : List DriftSig) : DriftSig :=
  rest.foldl (fun best x => if sigSeverity x > sigSeverity best then x else best) s

/-- Result of `DriftDetectionAgent._detect_drift`. -/
inductive DriftResult where
  | insufficientDays (days : ℕ)
  | noDrift
  | drift (dtype : String) (severity : ℚ) (pattern : PatternText)
      (confidence : ℚ) (daysObserved : ℕ) (suggestion : String)
  deriving DecidableEq

/-- The `detected` flag of a `_detect_drift` result. -/
def DriftResult.detected : DriftResult → Bool
  | .drift _ _ _ _ _ _ => true
  | _ => false

/-- `DriftDetectionAgent._detect_drift` (lines 159-222): guard on fewer
than 5 tracked days, then take the most severe triggered signal;
confidence is `min(0.95, 0.6 + severity * 0.3)`. -/
def detectDrift (p : DriftPatterns) : DriftResult :=
  if p.actualDaysTracked < 5 then .insufficientDays p.actualDaysTracked
  else
    match driftSignals p with
    | [] => .noDrift
    | s :: rest =>
      let m := pickMostSevere s rest
      .drift m.1 m.2.1 m.2.2 (min (19/20) (3/5 + m.2.1 * (3/10)))
        p.actualDaysTracked (suggestIntervention m.1)

/-- Result of `DriftDetectionAgent.process`: either the early
"Insufficient data (< 5 meals)" dict, or the full dict whose
`drift_detected`/`drift_type`/`severity`/... fields are read off the
`_detect_drift` result and whose `patterns_found` is the pattern dict. -/
inductive DriftProcessResult where
  | insufficientMeals
  | analyzed (drift : DriftResult) (patterns : DriftPatterns)
  deriving DecidableEq

/-- The `drift_detected` field of a `process` result (`false` in the
insufficient-meals dict, `drift["detected"]` otherwise). -/
def DriftProcessResult.driftDetected : DriftProcessResult → Bool
  | .insufficientMeals => false
  | .analyzed d _ => d.detected

/-- Whether a `process` result is one of the two insufficient-data shapes
(fewer than 5 meals, or fewer than 5 tracked days) that carry a `reason`
and no drift analysis. -/
def DriftProcessResult.isInsufficientData : DriftProcessResult → Bool
  | .insufficientMeals => true
  | .analyzed (.insufficientDays _) _ => true
  | .analyzed _ _ => false

/-- `DriftDetectionAgent.process` (lines 33-96): fewer than 5 meals
short-circuits; otherwise analyze patterns and detect drift. -/
def driftProcess (meals : List Meal) (daysTracked : ℕ) : DriftProcessResult :=
  if meals.length < 5 then .insufficientMeals
  else .analyzed (detectDrift (analyzePatterns meals daysTracked))
    (analyzePatterns meals daysTracked)

theorem pickMostSevere_spec (rest : List DriftSig) (s : DriftSig) :
    ∃ i, (s :: rest).get? i = some (pickMostSevere s rest)
      ∧ (∀ x ∈ s :: rest, sigSeverity x ≤ sigSeverity (pickMostSevere s rest))
      ∧ (∀ x ∈ (s :: rest).take i, sigSeverity x < sigSeverity (pickMostSevere s rest)) := by
  induction rest generalizing s with
  | nil =>
    refine ⟨0, rfl, ?_, by simp⟩
    intro x hx
    simp only [List.mem_singleton] at hx
    simp [hx, pickMostSevere]
  | cons b t ih =>
    by_cases hb : sigSeverity b > sigSeverity s
    · have hstep : pickMostSevere s (b :: t) = pickMostSevere b t := by
        simp [pickMostSevere, hb]
      obtain ⟨i, hget, hmax, htake⟩ := ih b
      refine ⟨i + 1, ?_, ?_, ?_⟩
      · simpa [hstep] using hget
      · intro x hx
        rw [hstep]
        rcases List.mem_cons.mp hx with hx | hx
        · subst hx
          have hbm := hmax b (List.mem_cons_self b t)
          exact le_of_lt (lt_of_lt_of_le hb hbm)
        · exact hmax x hx
      · intro x hx
        rw [hstep]
        simp only [List.take_succ_cons] at hx
        rcases List.mem_cons.mp hx with hx | hx
        · subst hx
          exact lt_of_lt_of_le hb (hmax b (List.mem_cons_self b t))
        · exact htake x hx
    · have hstep : pickMostSevere s (b :: t) = pickMostSevere s t := by
        simp [pickMostSevere, hb]
      obtain ⟨i, hget, hmax, htake⟩ := ih s
      have hble : sigSeverity b ≤ sigSeverity s := le_of_not_lt hb
      have hsle : sigSeverity s ≤ sigSeverity (pickMostSevere s t) :=
        hmax s (List.mem_cons_self s t)
      match i, hget with
      | 0, hget =>
        refine ⟨0, ?_, ?_, by simp⟩
        · simpa [hstep] using hget
        · intro x hx
          rw [hstep]
          rcases List.mem_cons.mp hx with hx | hx
          · subst hx; exact hsle
          rcases List.mem_cons.mp hx with hx | hx
          · subst hx; exact le_trans hble hsle
          · exact hmax x (List.mem_cons_of_mem s hx)
      | (j + 1), hget =>
        simp only [List.get?_cons_succ] at hget
        have hstrict : sigSeverity s < sigSeverity (pickMostSevere s t) := by
          have := htake s (by simp [List.take_succ_cons])
          exact this
        refine ⟨j + 2, ?_, ?_, ?_⟩
        · simpa [hstep] using hget
        · intro x hx
          rw [hstep]
          rcases List.mem_cons.mp hx with hx | hx
          · subst hx; exact hsle
          rcases List.mem_cons.mp hx with hx | hx
          · subst hx; exact le_trans hble hsle
          · exact hmax x (List.mem_cons_of_mem s hx)
        · intro x hx
          rw [hstep]
          simp only [List.take_succ_cons] at hx
          rcases List.mem_cons.mp hx with hx | hx
          · subst hx; exact hstrict
          rcases List.mem_cons.mp hx with hx | hx
          · subst hx; exact lt_of_le_of_lt hble hstrict
          · have : x ∈ (s :: t).take (j + 1) := by
              simp only [List.take_succ_cons]
              exact List.mem_cons_of_mem s hx
            exact htake x this

/-- C4: with at least 5 tracked days and at least one triggered signal,
`_detect_drift` reports exactly the signal of maximal severity among the
triggered ones — the first such in evaluation order (meal_skipping,
logging_decline, energy_irregularity, timing_instability, the order of
`driftSignals`) — with confidence `min(0.95, 0.6 + 0.3 * severity)`. -/
theorem drift_reports_most_severe (p : DriftPatterns)
    (h5 : 5 ≤ p.actualDaysTracked) (hne : driftSignals p ≠ []) :
    ∃ i m, (driftSignals p).get? i = some m
      ∧ detectDrift p = .drift m.1 m.2.1 m.2.2
          (min (19/20) (3/5 + m.2.1 * (3/10))) p.actualDaysTracked
          (suggestIntervention m.1)
      ∧ (∀ x ∈ driftSignals p, sigSeverity x ≤ sigSeverity m)
      ∧ (∀ x ∈ (driftSignals p).take i, sigSeverity x < sigSeverity m) := by
  match hsig : driftSignals p with
  | [] => exact absurd hsig hne
  | s :: rest =>
    obtain ⟨i, hget, hmax, htake⟩ := pickMostSevere_spec rest s
    refine ⟨i, pickMostSevere s rest, hsig ▸ hget, ?_, hsig ▸ hmax, hsig ▸ htake⟩
    unfold detectDrift
    rw [if_neg (by omega), hsig]

/-- Concrete patterns for the C4 witness: 5 tracked days, 4 estimated
skipped meals (severity 4/7), logging frequency 1 (severity 0). -/
def driftWitnessP : DriftPatterns := ⟨5, 4, 1, none, none, none⟩

theorem driftWitnessP_signals :
    driftSignals driftWitnessP =
      [("meal_skipping", 4/7, PatternText.mealSkipping 4 5),
       ("logging_decline", 0, PatternText.loggingDecline 1)] := by
  norm_num [driftSignals, driftWitnessP]

/-- C4 witness: the theorem applied to `driftWitnessP`. -/
theorem drift_reports_most_severe_witness :
    ∃ i m, (driftSignals driftWitnessP).get? i = some m
      ∧ detectDrift driftWitnessP = .drift m.1 m.2.1 m.2.2
          (min (19/20) (3/5 + m.2.1 * (3/10))) driftWitnessP.actualDaysTracked
          (suggestIntervention m.1)
      ∧ (∀ x ∈ driftSignals driftWitnessP, sigSeverity x ≤ sigSeverity m)
      ∧ (∀ x ∈ (driftSignals driftWitnessP).take i, sigSeverity x < sigSeverity m) :=
  drift_reports_most_severe driftWitnessP (by norm_num [driftWitnessP])
    (by rw [driftWitnessP_signals]; exact List.cons_ne_nil _ _)

/-- C5: with fewer than 5 meals or fewer than 5 distinct tracked calendar
days, `process` returns an insufficient-data result and in particular
never reports `drift_detected` as true. -/
theorem drift_insufficient_data (meals : List Meal) (daysTracked : ℕ)
    (h : meals.length < 5 ∨ distinctDayCount meals < 5) :
    (driftProcess meals daysTracked).driftDetected = false
    ∧ (driftProcess meals daysTracked).isInsufficientData = true := by
  by_cases hlen : meals.length < 5
  · simp [driftProcess, hlen, DriftProcessResult.driftDetected,
      DriftProcessResult.isInsufficientData]
  · have hdays : distinctDayCount meals < 5 := h.resolve_left hlen
    have hactual : (analyzePatterns meals daysTracked).actualDaysTracked < 5 := by
      unfold analyzePatterns
      unfold distinctDayCount at hdays
      by_cases hemp : (dedupStrs (extractDateStrs meals)).isEmpty
      · simp [hemp]
      · simp only [hemp, if_false]
        exact hdays
    have hdet : detectDrift (analyzePatterns meals daysTracked) =
        .insufficientDays (analyzePatterns meals daysTracked).actualDaysTracked := by
      unfold detectDrift
      rw [if_pos hactual]
    simp [driftProcess, hlen, hdet, DriftProcessResult.driftDetected,
      DriftProcessResult.isInsufficientData, DriftResult.detected]

/-- Six meals on just two distinct dates, for the C5 witness. -/
def crowdedMeals : List Meal :=
  [Meal.atDate "2024-03-01T08:00:00", Meal.atDate "2024-03-01T12:00:00",
   Meal.atDate "2024-03-01T19:00:00", Meal.atDate "2024-03-02T08:30:00",
   Meal.atDate "2024-03-02T13:00:00", Meal.atDate "2024-03-02T20:00:00"]

/-- C5 witness: six meals spanning two days are insufficient. -/
theorem drift_insufficient_data_witness :
    (driftProcess crowdedMeals 30).driftDetected = false
    ∧ (driftProcess crowdedMeals 30).isInsufficientData = true :=
  drift_insufficient_data crowdedMeals 30 (Or.inr (by decide))

/-- Patterns with logging frequency exactly 1.5 (the threshold). -/
def freq15P : DriftPatterns := ⟨6, 0, 3/2, none, none, none⟩

/-- Patterns with logging frequency 1.2. -/
def freq12P : DriftPatterns := ⟨5, 0, 6/5, none, none, none⟩

/-- C6: the logging_decline signal triggers exactly when the logging
frequency is strictly below 1.5 meals/day, with severity
`max(0, 1 - frequency)`; at frequency exactly 1.5 no logging_decline
signal is produced, and at frequency 1.2 it is produced with severity 0. -/
theorem logging_decline_boundary (p : DriftPatterns) :
    (((driftSignals p).any fun s => s.1 == "logging_decline") = true
        ↔ p.loggingFrequency < 3/2)
    ∧ (∀ sev pat, ("logging_decline", sev, pat) ∈ driftSignals p →
        sev = max 0 (1 - p.loggingFrequency))
    ∧ ((driftSignals freq15P).any fun s => s.1 == "logging_decline") = false
    ∧ ("logging_decline", (0 : ℚ), PatternText.loggingDecline (6/5)) ∈ driftSignals freq12P := by
  refine ⟨?_, ?_, ?_, ?_⟩
  · unfold driftSignals
    simp only [List.any_append]
    split_ifs <;> simp_all
  · intro sev pat hmem
    unfold driftSignals at hmem
    simp only [List.mem_append] at hmem
    rcases hmem with ((h | h) | h) | h <;>
      · split_ifs at h <;> simp_all
  · norm_num [driftSignals, freq15P]
  · norm_num [driftSignals, freq12P]

/-- C6 witness: at frequency 1.2 the produced severity is
`max(0, 1 - 1.2) = 0`. -/
theorem logging_decline_boundary_witness :
    (0 : ℚ) = max 0 (1 - freq12P.loggingFrequency) :=
  (logging_decline_boundary freq12P).2.1 0 (PatternText.loggingDecline (6/5))
    (logging_decline_boundary freq12P).2.2.2

/-! ## Energy Intervention agent (`energy_intervention.py`)

`EnergyInterventionAgent.process(context)` detects up to five additive
stress indicators and, when any fired, builds an intervention.  The
intervention path of `process` (line 75) reads
`user_data.get("user_goal", "")`, but `user_data` is not defined in the
scope of `process` (its parameter is named `context`; `user_data` is only
a parameter of `_detect_stress_signals`), so Python raises `NameError`
whenever an indicator fired.  The embedding keeps that raise as an
`Except.error`. -/

/-- The slice of the `process` context that `_detect_stress_signals`
reads: `energy_tags`, `recent_meals`, `logging_gaps` (the remaining keys —
energy level, nutrition, wellness message, time of day, profile — are
never read by the stress heuristics). -/
structure EnergyContext where
  energyTags : List String
  recentMeals : List Meal
  loggingGaps : Int
  deriving DecidableEq

/-- Faithful stand-in for the five indicator strings (two of them
f-strings; the constructors record the interpolated data, `timingVaries`
recording the square of the printed standard deviation). -/
inductive StressIndicator where
  | lowEnergyTags (pct : ℚ)
  | timingVaries (varianceSq : ℚ)
  | lightMeals
  | heavyLateMeals
  | loggingGap (days : Int)
  deriving DecidableEq

/-- `EnergyInterventionAgent._calculate_timing_variance` computes the
population variance of the parsed meal hours (each meal's `time` defaulted
to `"12:00"`, unparsable hours skipped) and returns its square root; the
embedding returns the variance itself (the square of the source's
result), and every comparison against it is squared accordingly. -/
def timingVarianceSq (meals : List Meal) : ℚ :=
  if meals.length < 2 then 0
  else
    let times := meals.filterMap fun m => pyInt? (splitHead (m.time.getD "12:00") ':')
    if times.length < 2 then 0
    else
      let qtimes : List ℚ := times.map fun t => (t : ℚ)
      let mean := qSum qtimes / qtimes.length
      qSum (qtimes.map fun t => (t - mean) ^ 2) / qtimes.length

/-- `EnergyInterventionAgent._is_late_meal`: hour parsed from the time
string is ≥ 20; any parse failure is `False`.  The caller passes
`m.get("time", "")`. -/
def isLateMeal (m : Meal) : Bool :=
  match pyInt? (splitHead (m.time.getD "") ':') with
  | some h => 20 ≤ h
  | none => false

/-- Indicator 1: low energy tagged on more than half of the tagged meals
(+0.30). -/
def stressSig1 (ctx : EnergyContext) : List StressIndicator × ℚ :=
  if ctx.energyTags.isEmpty then ([], 0)
  else
    let pct : ℚ := ((ctx.energyTags.filter (· = "low")).length : ℚ) / ctx.energyTags.length
    if pct > 1/2 then ([.lowEnergyTags pct], 3/10) else ([], 0)

/-- Indicator 2: over more than 3 recent meals, meal-hour standard
deviation above 3.5 — variance above 3.5² = 49/4 (+0.25). -/
def stressSig2 (ctx : EnergyContext) : List StressIndicator × ℚ :=
  if 3 < ctx.recentMeals.length then
    let v := timingVarianceSq ctx.recentMeals
    if v > 49/4 then ([.timingVaries v], 1/4) else ([], 0)
  else ([], 0)

/-- Indicator 3: more than 40% of recent meals under 400 kcal
(`calories_estimate` defaulted to 500) (+0.20). -/
def stressSig3 (ctx : EnergyContext) : List StressIndicator × ℚ :=
  let c := (ctx.recentMeals.filter fun m => decide (m.caloriesEstimate.getD 500 < 400)).length
  if (c : ℚ) > (ctx.recentMeals.length : ℚ) * (2/5) then ([.lightMeals], 1/5) else ([], 0)

/-- Indicator 4: some late meal (hour ≥ 20) above 600 kcal
(`calories_estimate` defaulted to 300) (+0.15). -/
def stressSig4 (ctx : EnergyContext) : List StressIndicator × ℚ :=
  let late := ctx.recentMeals.filter isLateMeal
  if late.isEmpty then ([], 0)
  else
    let heavy := (late.filter fun m => decide (m.caloriesEstimate.getD 300 > 600)).length
    if 0 < heavy then ([.heavyLateMeals], 3/20) else ([], 0)

/-- Indicator 5: logging gap above 2 days (+0.20). -/
def stressSig5 (ctx : EnergyContext) : List StressIndicator × ℚ :=
  if 2 < ctx.loggingGaps then ([.loggingGap ctx.loggingGaps], 1/5) else ([], 0)

/-- Result of `_detect_stress_signals`. -/
structure StressSignals where
  detected : Bool
  level : ℚ
  indicators : List StressIndicator
  deriving DecidableEq

/-- `EnergyInterventionAgent._detect_stress_signals` (lines 103-162): the
five indicators accumulate in order, the cumulative strength is capped at
1.0, and `detected` is "some indicator fired". -/
def detectStressSignals (ctx : EnergyContext) : StressSignals :=
  let s1 := stressSig1 ctx
  let s2 := stressSig2 ctx
  let s3 := stressSig3 ctx
  let s4 := stressSig4 ctx
  let s5 := stressSig5 ctx
  let indicators := s1.1 ++ s2.1 ++ s3.1 ++ s4.1 ++ s5.1
  ⟨0 < indicators.length, min (s1.2 + s2.2 + s3.2 + s4.2 + s5.2) 1, indicators⟩

/-- The (type, action, top-3 indicators) triple built by
`EnergyInterventionAgent._generate_intervention` — the tier is selected by
the cumulative stress score.  This method is only ever reached through the
broken `user_data` reference in `process`, so in the source it is dead on
the success path. -/
structure Intervention where
  itype : String
  action : String
  topIndicators : List StressIndicator
  deriving DecidableEq

/-- `EnergyInterventionAgent._generate_intervention` (lines 164-199). -/
def generateIntervention (stressLevel : ℚ) (indicators : List StressIndicator)
    (_userGoal : String) : Intervention :=
  if stressLevel < 3/10 then
    ⟨"gentle_reassurance", "Take a breath. You're doing your best.", indicators.take 3⟩
  else if stressLevel < 3/5 then
    ⟨"mild_support", "Want to simplify your approach for a few days?", indicators.take 3⟩
  else
    ⟨"significant_support",
     "You seem overwhelmed. Want to reset tomorrow with something simpler?",
     indicators.take 3⟩

/-- The no-stress early return of `process`. -/
inductive EnergyProcessOut where
  | noStress
  deriving DecidableEq

/-- `EnergyInterventionAgent.process` (lines 32-101): without indicators it
returns the fixed no-stress dict; with any indicator fired it evaluates
`user_data.get("user_goal", "")` with `user_data` unbound in its scope and
raises `NameError` before any result is produced. -/
def energyProcess (ctx : EnergyContext) : Except String EnergyProcessOut :=
  let signals := detectStressSignals ctx
  if !signals.detected then .ok .noStress
  else .error "NameError: name 'user_data' is not defined"

/-- A context in which exactly one stress indicator fires: a 3-day logging
gap (cumulative score 0.20). -/
def gapOnlyCtx : EnergyContext := ⟨[], [], 3⟩

/-- C2 (code bug): on an input where a stress indicator fires, `process`
raises `NameError` (its `user_data` reference is unbound) instead of
returning the tiered intervention the claim and the spec describe; the
tier selection itself (`_generate_intervention`) does map cumulative
scores below 0.3 to gentle reassurance, below 0.6 to mild support, and
the rest to significant support, as the claim states. -/
theorem energy_process_name_error :
    energyProcess gapOnlyCtx = .error "NameError: name 'user_data' is not defined"
    ∧ (detectStressSignals gapOnlyCtx).detected = true
    ∧ (detectStressSignals gapOnlyCtx).level = 1/5
    ∧ (generateIntervention (1/5) [] "").itype = "gentle_reassurance"
    ∧ (generateIntervention (2/5) [] "").itype = "mild_support"
    ∧ (generateIntervention (7/10) [] "").itype = "significant_support" := by
  refine ⟨?_, ?_, ?_, ?_, ?_, ?_⟩ <;>
    norm_num [energyProcess, detectStressSignals, stressSig1, stressSig2,
      stressSig3, stressSig4, stressSig5, gapOnlyCtx, timingVarianceSq,
      isLateMeal, generateIntervention]

/-! ## Goal Guardian agent (`goal_guardian.py`) -/

/-- Goal-category word families of
`GoalGuardianAgent._extract_goal_keywords`. -/
def energyWords : List String := ["energy", "focus", "alert", "awake", "vigor", "vitality"]

def consistencyWords : List String := ["consistent", "habit", "routine", "regular", "daily"]

def intuitionWords : List String := ["intuitive", "feel", "listen", "trust", "signal"]

def balanceWords : List String := ["balance", "moderate", "sustainable", "realistic"]

def wellnessWords : List String := ["well", "health", "support", "sustain", "thrive"]

/-- `GoalGuardianAgent._extract_goal_keywords` (lines 159-183): each family
whose trigger word occurs in the lower-cased goal contributes its whole
word list; an empty result falls back to `["wellness", "support"]`. -/
def extractGoalKeywords (goal : String) : List String :=
  let gl := lowerStr goal
  let kws :=
    (if energyWords.any fun w => pyIn w gl then energyWords else []) ++
    (if consistencyWords.any fun w => pyIn w gl then consistencyWords else []) ++
    (if intuitionWords.any fun w => pyIn w gl then intuitionWords else []) ++
    (if balanceWords.any fun w => pyIn w gl then balanceWords else []) ++
    (if wellnessWords.any fun w => pyIn w gl then wellnessWords else [])
  if kws.isEmpty then ["wellness", "support"] else kws

/-- `GoalGuardianAgent._check_misalignment` (lines 185-213), four rules in
source order. -/
def checkMisalignment (goal recommendation : String) : List String :=
  let gl := lowerStr goal
  let rl := lowerStr recommendation
  (if pyIn "intuitive" gl && (pyIn "calories" rl && pyIn "count" rl) then
    ["Rigid calorie counting contradicts intuitive eating"]
   else []) ++
  (if (pyIn "sustainable" gl || pyIn "realistic" gl)
      && (["must", "always", "never", "extreme", "strict", "discipline"].any fun e => pyIn e rl) then
    ["Extreme advice contradicts sustainable approach"]
   else []) ++
  (if pyIn "energy" gl && (pyIn "restrict" rl || pyIn "fewer" rl || pyIn "cut back" rl) then
    ["Restriction contradicts energy goals"]
   else []) ++
  (if ["failure", "bad", "undisciplined", "weak", "lazy"].any fun w => pyIn w rl then
    ["Shame-based language contradicts wellness"]
   else [])

/-- Alignment assessment of `_assess_alignment`: clamped score, keywords
found in the recommendation, misalignment notes.  (The human-readable
`reasoning` report string of `_generate_reasoning` is not modelled.) -/
structure AlignmentOut where
  score : ℚ
  alignedKeywords : List String
  misaligned : List String
  deriving DecidableEq

/-- `GoalGuardianAgent._assess_alignment` (lines 116-157): keyword-hit
ratio, times 0.7 on any misalignment, an extra −0.1 for a poorly scoring
`"action"` recommendation, clamped into [0,1]. -/
def assessAlignment (goal recommendation recType : String) : AlignmentOut :=
  let goalKeywords := extractGoalKeywords goal
  let aligned := goalKeywords.filter fun kw => pyIn kw recommendation
  let misaligned := checkMisalignment goal recommendation
  let score0 : ℚ :=
    if goalKeywords.isEmpty then 1/2
    else (aligned.length : ℚ) / goalKeywords.length
  let score1 := if !misaligned.isEmpty then score0 * (7/10) else score0
  let score2 := if recType = "action" ∧ score1 < 3/5 then score1 - 1/10 else score1
  ⟨min 1 (max 0 score2), aligned, misaligned⟩

/-- `GoalGuardianAgent._modify_recommendation` (lines 215-238); the
substitution branches use Python `str.replace`, i.e. replace-all. -/
def modifyRecommendation (goal recommendation : String) : String :=
  let gl := lowerStr goal
  if pyIn "energy" gl && pyIn "restrict" recommendation then
    (recommendation.replace "restrict" "consider") ++ " while maintaining your energy levels."
  else if pyIn "intuitive" gl && pyIn "calories" recommendation then
    "Focus on how you feel after this meal rather than the calorie count."
  else if pyIn "consistent" gl && pyIn "perfect" recommendation then
    recommendation.replace "perfect" "consistent"
  else "Here's how this supports your goal (" ++ goal ++ "): " ++ recommendation

/-- Result of `GoalGuardianAgent.process`: the early no-goal dict, or the
review carrying `aligned_with_goal`, the alignment assessment,
`should_modify` and the optional `modification`.  (The goal-progress,
affirmation and action-percentage fields, which no claim touches, are not
modelled.) -/
inductive GuardianOut where
  | noGoal
  | reviewed (alignedWithGoal : Bool) (alignment : AlignmentOut)
      (shouldModify : Bool) (modification : Option String)
  deriving DecidableEq

/-- `GoalGuardianAgent.process` (lines 32-114): goal and recommendation are
lower-cased on entry; `rec_type` defaults to `""` via
`context.get("recommendation_type", "")`; modification is produced only
when the score is below 0.7 and the type is `"action"` or `"insight"`. -/
def guardianProcess (userGoal recommendation recType : String) : GuardianOut :=
  let goal := lowerStr userGoal
  let recText := lowerStr recommendation
  if goal = "" then .noGoal
  else
    let alignment := assessAlignment goal recText recType
    let needsMod := decide (alignment.score < 7/10)
      && (recType == "action" || recType == "insight")
    let modified := if needsMod then some (modifyRecommendation goal recText) else none
    .reviewed (decide (alignment.score > 7/10)) alignment needsMod modified

theorem c7_assess :
    assessAlignment (lowerStr "I want more intuitive eating")
        (lowerStr "count your calories carefully") "" =
      ⟨0, [], ["Rigid calorie counting contradicts intuitive eating"]⟩ := by
  have hkw : extractGoalKeywords (lowerStr "I want more intuitive eating") = intuitionWords := by
    decide
  have hal : intuitionWords.filter
      (fun kw => pyIn kw (lowerStr "count your calories carefully")) = [] := by decide
  have hmis : checkMisalignment (lowerStr "I want more intuitive eating")
      (lowerStr "count your calories carefully") =
      ["Rigid calorie counting contradicts intuitive eating"] := by decide
  simp only [assessAlignment, hkw, hal, hmis]
  norm_num [intuitionWords, List.isEmpty]
  rw [if_neg (show ¬("" : String) = "action" from by decide)]
  norm_num

theorem c7_assess_action :
    assessAlignment (lowerStr "I want more intuitive eating")
        (lowerStr "count your calories carefully") "action" =
      ⟨0, [], ["Rigid calorie counting contradicts intuitive eating"]⟩ := by
  have hkw : extractGoalKeywords (lowerStr "I want more intuitive eating") = intuitionWords := by
    decide
  have hal : intuitionWords.filter
      (fun kw => pyIn kw (lowerStr "count your calories carefully")) = [] := by decide
  have hmis : checkMisalignment (lowerStr "I want more intuitive eating")
      (lowerStr "count your calories carefully") =
      ["Rigid calorie counting contradicts intuitive eating"] := by decide
  simp only [assessAlignment, hkw, hal, hmis]
  norm_num [intuitionWords, List.isEmpty]

/-- C7 counterexample: when the recommendation type takes its in-method
default value `""` (from `context.get("recommendation_type", "")`), the
rigid-calorie-counting rule fires and multiplies the score by 0.7, but
`should_modify` is false — `""` is not in `["action", "insight"]` — and no
modification text is produced, contradicting the claim. -/
theorem guardian_default_type_no_modify :
    guardianProcess "I want more intuitive eating" "count your calories carefully" "" =
      .reviewed false ⟨0, [], ["Rigid calorie counting contradicts intuitive eating"]⟩
        false none := by
  have hd1 : decide ((0 : ℚ) > 7/10) = false := by
    simp only [decide_eq_false_iff_not]
    norm_num
  have hd2 : (("" == "action") || ("" == "insight")) = false := by decide
  simp only [guardianProcess, if_neg (by decide : ¬ lowerStr "I want more intuitive eating" = ""),
    c7_assess, hd1, hd2, Bool.and_false, Bool.false_eq_true, if_false]

/-- C7 amended: with the recommendation type `"action"` (the value the
orchestrator actually passes), the rigid-calorie-counting rule fires (score
multiplied by 0.7, then the action penalty, clamped to 0), `should_modify`
is true, and the modification text is exactly "Focus on how you feel after
this meal rather than the calorie count."; with the in-method default type
`""`, `should_modify` is false. -/
theorem guardian_action_type_modifies :
    guardianProcess "I want more intuitive eating" "count your calories carefully" "action" =
      .reviewed false ⟨0, [], ["Rigid calorie counting contradicts intuitive eating"]⟩
        true (some "Focus on how you feel after this meal rather than the calorie count.") := by
  have hd1 : decide ((0 : ℚ) > 7/10) = false := by
    simp only [decide_eq_false_iff_not]
    norm_num
  have hd3 : decide ((0 : ℚ) < 7/10) = true := by
    simp only [decide_eq_true_eq]
    norm_num
  have hd2 : (("action" == "action") || ("action" == "insight")) = true := by decide
  have hmod : modifyRecommendation (lowerStr "I want more intuitive eating")
      (lowerStr "count your calories carefully") =
      "Focus on how you feel after this meal rather than the calorie count." := by
    have h1 : pyIn "energy" (lowerStr (lowerStr "I want more intuitive eating")) = false := by
      decide
    have h2 : pyIn "intuitive" (lowerStr (lowerStr "I want more intuitive eating")) = true := by
      decide
    have h3 : pyIn "calories" (lowerStr "count your calories carefully") = true := by decide
    simp [modifyRecommendation, h1, h2, h3]
  simp only [guardianProcess, if_neg (by decide : ¬ lowerStr "I want more intuitive eating" = ""),
    c7_assess_action, hd1, hd3, hd2, Bool.and_true, Bool.true_and, if_true, hmod]

/-! ## Orchestrator streak computation (`orchestrator.py`, lines 313-349)

`MealAnalysisOrchestrator._calculate_streak` extracts the distinct
`split("T")[0]` date strings (the extraction guarded by `try`), sorts them
(Python `sorted`: ascending lexicographic order), and walks consecutive
pairs computing `(fromisoformat(current).date() - fromisoformat(previous)
.date()).days == 1`.  The `fromisoformat` calls sit OUTSIDE any `try`:
a date string it cannot parse raises `ValueError` out of the function. -/

/-- Lexicographic ≤ on character lists (Python string comparison on
distinct strings, as used by `sorted`). -/
def lexLe : List Char → List Char → Bool
  | [], _ => true
  | _ :: _, [] => false
  | a :: as, b :: bs => if a = b then lexLe as bs else decide (a < b)

/-- Insert into an ascending list (helper for `sortStrs`). -/
def insertStr (s : String) : List String → List String
  | [] => [s]
  | t :: ts => if lexLe s.data t.data then s :: t :: ts else t :: insertStr s ts

/-- Ascending (Python `sorted`) insertion sort on strings. -/
def sortStrs (l : List String) : List String := l.foldr insertStr []

/-- Gregorian leap-year test (as `datetime.date` uses). -/
def isLeapB (y : Int) : Bool := (y % 4 == 0 && y % 100 != 0) || y % 400 == 0

/-- Day count of a month in a given year. -/
def daysInMonth (y m : Int) : Int :=
  if m = 2 then (if isLeapB y then 29 else 28)
  else if m = 4 ∨ m = 6 ∨ m = 9 ∨ m = 11 then 30
  else 31

/-- Days in the non-leap year strictly before month `m`. -/
def daysBeforeMonth (m : Int) : Int :=
  if m = 1 then 0 else if m = 2 then 31 else if m = 3 then 59
  else if m = 4 then 90 else if m = 5 then 120 else if m = 6 then 151
  else if m = 7 then 181 else if m = 8 then 212 else if m = 9 then 243
  else if m = 10 then 273 else if m = 11 then 304 else 334

/-- Proleptic-Gregorian ordinal of a calendar date, the day count
`datetime.date.toordinal` uses (0001-01-01 ↦ 1); date subtraction
`(a - b).days` is the difference of ordinals. -/
def ordOf (y m d : Int) : Int :=
  365 * (y - 1) + (y - 1) / 4 - (y - 1) / 100 + (y - 1) / 400
    + daysBeforeMonth m + (if 2 < m ∧ isLeapB y then 1 else 0) + d

/-- Parse of a `YYYY-MM-DD` date string into its ordinal.
`datetime.fromisoformat` accepts a broader ISO grammar; this models the
date-only form, which is the shape `split("T")[0]` produces from the ISO
timestamps this codebase writes (`datetime.utcnow().isoformat()`).  Any
other string is rejected, as `fromisoformat` rejects it. -/
def parseDateOrd? (s : String) : Option Int :=
  match s.data with
  | [y1, y2, y3, y4, h1, m1, m2, h2, d1, d2] =>
    if h1 = '-' ∧ h2 = '-' then
      match digitVal? y1, digitVal? y2, digitVal? y3, digitVal? y4,
          digitVal? m1, digitVal? m2, digitVal? d1, digitVal? d2 with
      | some a, some b, some c, some d, some e, some f, some g, some h =>
        let year : Int := 1000 * a + 100 * b + 10 * c + d
        let month : Int := 10 * e + f
        let day : Int := 10 * g + h
        if 1 ≤ year ∧ 1 ≤ month ∧ month ≤ 12 ∧ 1 ≤ day ∧ day ≤ daysInMonth year month then
          some (ordOf year month day)
        else none
      | _, _, _, _, _, _, _, _ => none
    else none
  | _ => none

/-- A `fromisoformat` call: parse or raise `ValueError`. -/
def parseOrd (s : String) : Except String Int :=
  match parseDateOrd? s with
  | some o => .ok o
  | none => .error ("ValueError: Invalid isoformat string: '" ++ s ++ "'")

/-- The consecutive-pair loop of `_calculate_streak` (lines 339-347):
each iteration parses `current` then `previous` (both unguarded), extends
the running streak on a 1-day difference and resets it otherwise. -/
def streakGo (prevStr : String) (streak maxStreak : ℕ) :
    List String → Except String ℕ
  | [] => .ok maxStreak
  | d :: rest => do
    let cur ← parseOrd d
    let prev ← parseOrd prevStr
    if cur - prev = 1 then streakGo d (streak + 1) (max maxStreak (streak + 1)) rest
    else streakGo d 1 maxStreak rest

/-- `MealAnalysisOrchestrator._calculate_streak`: no meals or no extracted
dates give 0; otherwise the sorted distinct date strings are walked with
`streak = max_streak = 1` initially.  A single (even malformed) date
string returns 1 without parsing anything. -/
def calculateStreak (meals : List Meal) : Except String ℕ :=
  if meals.isEmpty then .ok 0
  else
    match sortStrs (dedupStrs (extractDateStrs meals)) with
    | [] => .ok 0
    | d0 :: rest => streakGo d0 1 1 rest

/-- Two meals with malformed (non-ISO) timestamps. -/
def malformedMeals : List Meal := [Meal.atDate "banana", Meal.atDate "apple"]

/-- Four well-formed meals spanning three consecutive days plus a gap. -/
def streakMeals : List Meal :=
  [Meal.atDate "2024-03-01T08:00:00", Meal.atDate "2024-03-02T09:10:00",
   Meal.atDate "2024-03-03T12:00:00", Meal.atDate "2024-03-07T19:00:00"]

/-- C8 (code bug): the `try` in `_calculate_streak` only guards date-string
extraction, not the `fromisoformat` parses in the pair loop, so with two
distinct malformed timestamps the computation raises `ValueError` instead
of skipping them (first conjunct); a single malformed timestamp is counted
as a streak of 1 rather than skipped (second conjunct); on well-formed
timestamps the longest run of consecutive calendar dates is returned as
the claim describes (third conjunct). -/
theorem streak_raises_on_malformed :
    calculateStreak malformedMeals =
      .error "ValueError: Invalid isoformat string: 'banana'"
    ∧ calculateStreak [Meal.atDate "banana"] = .ok 1
    ∧ calculateStreak streakMeals = .ok 3 :=
  ⟨rfl, rfl, rfl⟩

/-! ## Next-Action agent (`next_action_agent.py`) -/

/-- `NextActionAgent._hours_since_last_meal` (lines 204-223): 12.0 for an
empty meal list; 4.0 for a missing/empty/unparsable last-meal time;
otherwise the modulo-24 hour difference to the current wall-clock hour,
with 0 mapped to 24.  The current hour (`datetime.now().hour`) is an
explicit parameter of the embedding. -/
def hoursSinceLastMeal (recentMeals : List Meal) (currentHour : Int) : ℚ :=
  match recentMeals.getLast? with
  | none => 12
  | some m =>
    let t := m.time.getD ""
    if t = "" then 4
    else
      match pyInt? (splitHead t ':') with
      | none => 4
      | some lastHour =>
        let hoursAgo := (currentHour - lastHour) % 24
        if 0 < hoursAgo then (hoursAgo : ℚ) else 24

/-- The drift-result fields `NextActionAgent._detect_stress_signals`
reads: the `detected` flag and the `type` string. -/
structure NADrift where
  detected : Bool
  dtype : Option String
  deriving DecidableEq

/-- `NextActionAgent._detect_stress_signals` (lines 225-247): up to two of
three fixed signal strings, in source order. -/
def detectStressNA (drift : NADrift) (recentMeals : List Meal) (_time : String) :
    List String :=
  ((if drift.detected && (drift.dtype == some "logging_decline") then
      ["You've been logging less frequently"]
    else []) ++
   (match recentMeals.getLast? with
    | none => []
    | some last =>
      match pyInt? (splitHead (last.time.getD "") ':') with
      | some h => if 21 < h then ["Heavy meal logged late at night"] else []
      | none => []) ++
   (if drift.dtype == some "energy_irregularity" then
      ["Your energy has been erratic recently"]
    else [])).take 2

/-- `NextActionAgent._determine_goal_focus` (lines 249-260). -/
def determineGoalFocus (goal : String) : String :=
  let gl := lowerStr goal
  if ["energy", "focus", "mood", "consistent"].any fun w => pyIn w gl then "consistency"
  else if ["balance", "intuitive", "feel"].any fun w => pyIn w gl then "intuition"
  else if ["weight", "muscle", "lose", "gain"].any fun w => pyIn w gl then "composition"
  else "consistency"

/-- Faithful stand-in for the per-branch `reasoning` string lists (one
holds an interpolated hour count and the energy level; one embeds the
detected stress-signal strings). -/
inductive DecisionReason where
  | underFueled (hoursAgo : ℚ) (energy : String)
  | stress (signals : List String)
  | consistency
  | normalization
  deriving DecidableEq

/-- A `_make_decision` result dict. -/
structure Decision where
  action : String
  dtype : String
  reasoning : DecisionReason
  confidence : ℚ
  urgency : String
  alternatives : List String
  path : List String
  deriving DecidableEq

/-- The under-fueled branch result (lines 125-142): high urgency,
confidence 0.85. -/
def underFueledDecision (hoursAgo : ℚ) (energy : String) : Decision :=
  ⟨"Have a balanced meal or substantial snack in the next 30 minutes",
   "nutritional_intervention", .underFueled hoursAgo energy, 17/20, "high",
   ["Start with hydration and protein snack",
    "Have a light meal and reassess in 30 min"],
   ["Under-fueled detected"]⟩

/-- `NextActionAgent._make_decision` (lines 106-202), the strict-priority
decision tree.  The unused `meal_data` and `profile` parameters of the
source are omitted. -/
def makeDecision (energy : String) (drift : NADrift) (goal : String)
    (recentMeals : List Meal) (time : String) (currentHour : Int) : Decision :=
  let lastMealHoursAgo := hoursSinceLastMeal recentMeals currentHour
  let isLowEnergy := energy == "low"
  let isUnderfueled :=
    decide (lastMealHoursAgo > 5) || (isLowEnergy && decide (lastMealHoursAgo > 3))
  if isUnderfueled then underFueledDecision lastMealHoursAgo energy
  else
    let stressSignals := detectStressNA drift recentMeals time
    if !stressSignals.isEmpty then
      ⟨"Take a break from logging today. Focus on intuitive eating and reset tomorrow",
       "stress_relief", .stress stressSignals, 39/50, "moderate",
       ["Pause logging, but continue tracking energy",
        "Take a walk, then reassess your day"],
       ["Stress signals detected"]⟩
    else if determineGoalFocus goal == "consistency" then
      ⟨"Log this meal and note how you feel afterward", "consistency_maintenance",
       .consistency, 41/50, "moderate",
       ["Simple logging: just food names",
        "Detailed logging: include energy + mood"],
       ["Goal prioritizes consistency"]⟩
    else
      ⟨"Continue with your meal. You're on track", "normalization", .normalization,
       22/25, "low",
       ["Log this meal when done", "No action needed — enjoy your meal"],
       ["No intervention needed"]⟩

/-- C10: the hours-since-last-meal computation returns 12.0 on an empty
recent-meals list and 24 when the last meal's parsed hour equals the
current hour (the modulo-24 difference of 0 is mapped to 24); both values
exceed 5, so in both cases the decision tree takes the under-fueled
branch: the high-urgency have-a-meal action with confidence 0.85. -/
theorem next_action_underfueled :
    (∀ ch : Int, hoursSinceLastMeal [] ch = 12)
    ∧ (∀ (meals : List Meal) (m : Meal) (t : String) (h ch : Int),
        meals.getLast? = some m → m.time = some t → ¬ t = "" →
        pyInt? (splitHead t ':') = some h → h = ch →
        hoursSinceLastMeal meals ch = 24)
    ∧ (∀ (energy : String) (drift : NADrift) (goal : String)
        (meals : List Meal) (time : String) (ch : Int),
        hoursSinceLastMeal meals ch = 12 ∨ hoursSinceLastMeal meals ch = 24 →
        makeDecision energy drift goal meals time ch =
          underFueledDecision (hoursSinceLastMeal meals ch) energy) := by
  refine ⟨fun ch => rfl, ?_, ?_⟩
  · intro meals m t h ch hlast htime ht hparse hch
    subst hch
    simp only [hoursSinceLastMeal, hlast, htime, Option.getD_some, if_neg ht, hparse,
      sub_self, Int.zero_emod, lt_irrefl, if_false]
  · intro energy drift goal meals time ch hdisj
    have h5 : decide (hoursSinceLastMeal meals ch > 5) = true := by
      rcases hdisj with h | h <;>
        · rw [h]
          simp only [decide_eq_true_eq]
          norm_num
    simp only [makeDecision, h5, Bool.true_or, if_true]

/-- A single meal whose parsed hour is 8. -/
def nineAmMeal : Meal := ⟨none, some "08:00", none, none⟩

/-- C10 witness: with the last meal at hour 8 and current hour 8 the
computation yields 24 and the under-fueled branch fires. -/
theorem next_action_underfueled_witness :
    hoursSinceLastMeal [nineAmMeal] 8 = 24
    ∧ makeDecision "medium" ⟨false, none⟩ "" [nineAmMeal] "" 8 =
        underFueledDecision 24 "medium" := by
  have h24 : hoursSinceLastMeal [nineAmMeal] 8 = 24 :=
    next_action_underfueled.2.1 [nineAmMeal] nineAmMeal "08:00" 8 8 rfl rfl
      (by decide) (by decide) rfl
  refine ⟨h24, ?_⟩
  rw [next_action_underfueled.2.2 "medium" ⟨false, none⟩ "" [nineAmMeal] "" 8 (Or.inr h24), h24]

/-! ## Orchestrator pipeline (`orchestrator.py`, `analyze_meal`, lines 50-302)

`analyze_meal` builds one `results` dict, running the ten agent stages in
order; each stage sits in its own `try/except` which substitutes the
stage's default (plus an `error` field) on any exception.  The embedding
models JSON values with `Val`, Python dicts as insertion-ordered
association lists, and each stage's `try`-block outcome (the agent call,
`await`ed network I/O included) as an `Except String Val` parameter; the
stage context dicts built from earlier results (and the
`current_meal_entry` merge of lines 161-169, whose construction cannot
raise) feed only those calls, so they are subsumed by the outcome
parameters.  `analyze_meal` itself is embedded in `Except`: an exception
escaping a stage's handler would surface as `.error`. -/

/-- A JSON-compatible Python value. -/
inductive Val where
  | str (s : String)
  | num (q : ℚ)
  | boolean (b : Bool)
  | null
  | list (xs : List Val)
  | dict (entries : List (String × Val))

/-- A Python dict as an insertion-ordered association list. -/
abbrev PyDict := List (String × Val)

/-- Python `d[k] = v`: update in place, or append a fresh key at the end
(insertion order preserved). -/
def setKey : PyDict → String → Val → PyDict
  | [], k, v => [(k, v)]
  | (k', v') :: rest, k, v =>
    if k' = k then (k', v) :: rest else (k', v') :: setKey rest k v

/-- Python `d.get(k)` / key lookup. -/
def getKey? : PyDict → String → Option Val
  | [], _ => none
  | (k', v') :: rest, k => if k' = k then some v' else getKey? rest k

/-- Key list of a dict, in insertion order. -/
def keysOf (d : PyDict) : List String := d.map Prod.fst

/-- The `results["agents"]` sub-dict (always present and a dict in
`analyze_meal`; the fallback branch is unreachable there). -/
def agentsOf (r : PyDict) : PyDict :=
  match getKey? r "agents" with
  | some (.dict a) => a
  | _ => []

/-- Key list of the `agents` sub-dict. -/
def agentKeys (r : PyDict) : List String := keysOf (agentsOf r)

/-- Python `results["agents"][name] = v`. -/
def setAgent (r : PyDict) (name : String) (v : Val) : PyDict :=
  setKey r "agents" (.dict (setKey (agentsOf r) name v))

/-- The `foods` list of a vision result (`vision_result.get("foods", [])`;
a non-list value there would make the Python stage raise, which the stage
outcome parameter already covers). -/
def foodsOf (v : Val) : List Val :=
  match v with
  | .dict d =>
    match getKey? d "foods" with
    | some (.list l) => l
    | _ => []
  | _ => []

/-- One food's `f.get("confidence", "medium")`. -/
def confidenceOfFood (f : Val) : Val :=
  match f with
  | .dict d => (getKey? d "confidence").getD (.str "medium")
  | _ => .str "medium"

/-- `utils/confidence.py`, `calculate_overall_confidence`: any `"low"`
gives "low"; otherwise "high" when the `"high"` count is at least half the
length (`high_count >= len(confidences) / 2` with exact float division);
otherwise "medium"; an empty list gives "medium". -/
def calculateOverallConfidence (confidences : List Val) : String :=
  if confidences.isEmpty then "medium"
  else if confidences.any fun c => match c with | .str s => s == "low" | _ => false then
    "low"
  else if confidences.length ≤
      2 * (confidences.countP fun c => match c with | .str s => s == "high" | _ => false) then
    "high"
  else "medium"

/-- The fixed disclaimer attached at line 300. -/
def disclaimerText : String :=
  "This app provides general wellness insights, not medical advice."

/-- The `context` value recorded in the results (`None` or the string). -/
def ctxVal : Option String → Val
  | some s => .str s
  | none => .null

/-- The fresh `results` dict of lines 74-78. -/
def baseResults (tIso : String) (ctx : Option String) : PyDict :=
  [("timestamp", .str tIso), ("context", ctxVal ctx), ("agents", .dict [])]

/-- Vision-stage failure default for `vision_result` (line 102). -/
def visionErrorDefault (e : String) : Val :=
  .dict [("foods", .list []), ("image_ambiguity", .str "high"), ("error", .str e)]

/-- Nutrition-stage failure default (lines 115-120). -/
def nutritionErrorDefault (e : String) : Val :=
  .dict [("total_calories", .dict [("min", .num 0), ("max", .num 0)]),
         ("macros", .dict [("protein", .str "N/A"), ("carbs", .str "N/A"),
                           ("fat", .str "N/A")]),
         ("uncertainty", .str "high"), ("error", .str e)]

/-- Personalization-stage failure default (lines 134-138). -/
def personalizationErrorDefault (e : String) : Val :=
  .dict [("balance_status", .str "roughly_aligned"),
         ("daily_context", .str "Unable to personalize due to an error."),
         ("error", .str e)]

/-- Wellness-stage failure default (lines 152-158). -/
def wellnessErrorDefault (e : String) : Val :=
  .dict [("message", .str "Your meal has been logged! Remember to enjoy your food and listen to your body."),
         ("emoji_indicator", .str "🟢"), ("suggestions", .list []),
         ("disclaimer_shown", .boolean true), ("error", .str e)]

/-- Success path of the vision stage (lines 81-98): record the result under
`agents.vision` and `vision_result`, then the overall confidence derived
from the per-food confidences. -/
def visionOk (r : PyDict) (v : Val) : PyDict :=
  setKey (setKey (setAgent r "vision" v) "vision_result" v) "confidence_score"
    (.str (calculateOverallConfidence ((foodsOf v).map confidenceOfFood)))

/-- Failure path of the vision stage (lines 100-103). -/
def visionErr (r : PyDict) (e : String) : PyDict :=
  setKey (setKey (setAgent r "vision" (.dict [("error", .str e)]))
      "vision_result" (visionErrorDefault e))
    "confidence_score" (.str "low")

/-- Success path of the nutrition stage (lines 105-111). -/
def nutritionOk (r : PyDict) (v : Val) : PyDict :=
  setKey (setAgent r "nutrition" v) "nutrition_result" v

/-- Failure path of the nutrition stage (lines 113-120). -/
def nutritionErr (r : PyDict) (e : String) : PyDict :=
  setKey (setAgent r "nutrition" (.dict [("error", .str e)]))
    "nutrition_result" (nutritionErrorDefault e)

/-- Success path of the personalization stage (lines 122-130). -/
def personalizationOk (r : PyDict) (v : Val) : PyDict :=
  setKey (setAgent r "personalization" v) "personalization_result" v

/-- Failure path of the personalization stage (lines 132-138). -/
def personalizationErr (r : PyDict) (e : String) : PyDict :=
  setKey (setAgent r "personalization" (.dict [("error", .str e)]))
    "personalization_result" (personalizationErrorDefault e)

/-- Success path of the wellness stage (lines 140-148). -/
def wellnessOk (r : PyDict) (v : Val) : PyDict :=
  setKey (setAgent r "wellness" v) "wellness_result" v

/-- Failure path of the wellness stage (lines 150-158). -/
def wellnessErr (r : PyDict) (e : String) : PyDict :=
  setKey (setAgent r "wellness" (.dict [("error", .str e)]))
    "wellness_result" (wellnessErrorDefault e)

/-- Success path of stages 5-10: record under `agents.<name>` only. -/
def simpleStageOk (r : PyDict) (name : String) (v : Val) : PyDict :=
  setAgent r name v

/-- Failure path of stages 6-10: `{"error": e}` under `agents.<name>`. -/
def simpleStageErr (r : PyDict) (name : String) (e : String) : PyDict :=
  setAgent r name (.dict [("error", .str e)])

/-- Failure path of the drift stage (line 187): error plus
`drift_detected: false`. -/
def driftErr (r : PyDict) (e : String) : PyDict :=
  setAgent r "drift_detection" (.dict [("error", .str e), ("drift_detected", .boolean false)])

/-- The value a `try/except` stage leaves behind: the try-block result, or
the handler's on the raised message. -/
def stageStep (out : Except String Val) (okf : Val → PyDict) (errf : String → PyDict) :
    PyDict :=
  match out with
  | .ok v => okf v
  | .error e => errf e

/-- A Python `try: ... except Exception as e: ...` block around a stage,
in the exception monad. -/
def tryStage (out : Except String Val) (okf : Val → PyDict) (errf : String → PyDict) :
    Except String PyDict :=
  Except.tryCatch (do
    let v ← out
    pure (okf v)) (fun e => pure (errf e))

theorem tryStage_eq (out : Except String Val) (okf : Val → PyDict)
    (errf : String → PyDict) : tryStage out okf errf = .ok (stageStep out okf errf) := by
  cases out <;> rfl

/-- Stage 1 (vision) with its `try/except` resolved. -/
def stage1 (r : PyDict) (out : Except String Val) : PyDict :=
  stageStep out (visionOk r) (visionErr r)

/-- Stage 2 (nutrition) with its `try/except` resolved. -/
def stage2 (r : PyDict) (out : Except String Val) : PyDict :=
  stageStep out (nutritionOk r) (nutritionErr r)

/-- Stage 3 (personalization) with its `try/except` resolved. -/
def stage3 (r : PyDict) (out : Except String Val) : PyDict :=
  stageStep out (personalizationOk r) (personalizationErr r)

/-- Stage 4 (wellness) with its `try/except` resolved. -/
def stage4 (r : PyDict) (out : Except String Val) : PyDict :=
  stageStep out (wellnessOk r) (wellnessErr r)

/-- Stage 5 (drift detection) with its `try/except` resolved. -/
def stage5 (r : PyDict) (out : Except String Val) : PyDict :=
  stageStep out (simpleStageOk r "drift_detection") (driftErr r)

/-- Stages 6-10 with their `try/except` resolved. -/
def stageSimple (r : PyDict) (name : String) (out : Except String Val) : PyDict :=
  stageStep out (simpleStageOk r name) (simpleStageErr r name)

theorem tryStage_stage1 (r : PyDict) (out : Except String Val) :
    tryStage out (visionOk r) (visionErr r) = .ok (stage1 r out) := tryStage_eq _ _ _

theorem tryStage_stage2 (r : PyDict) (out : Except String Val) :
    tryStage out (nutritionOk r) (nutritionErr r) = .ok (stage2 r out) := tryStage_eq _ _ _

theorem tryStage_stage3 (r : PyDict) (out : Except String Val) :
    tryStage out (personalizationOk r) (personalizationErr r) = .ok (stage3 r out) :=
  tryStage_eq _ _ _

theorem tryStage_stage4 (r : PyDict) (out : Except String Val) :
    tryStage out (wellnessOk r) (wellnessErr r) = .ok (stage4 r out) := tryStage_eq _ _ _

theorem tryStage_stage5 (r : PyDict) (out : Except String Val) :
    tryStage out (simpleStageOk r "drift_detection") (driftErr r) = .ok (stage5 r out) :=
  tryStage_eq _ _ _

theorem tryStage_stageSimple (r : PyDict) (name : String) (out : Except String Val) :
    tryStage out (simpleStageOk r name) (simpleStageErr r name) =
      .ok (stageSimple r name out) := tryStage_eq _ _ _

/-- `MealAnalysisOrchestrator.analyze_meal`: the ten stages in order, each
behind its `try/except`, then the fixed disclaimer.  `tIso` stands for the
`datetime.utcnow().isoformat()` timestamp read at entry. -/
def analyzeMeal (tIso : String) (ctx : Option String)
    (visionOut nutritionOut personalizationOut wellnessOut driftOut nextActionOut
     goalGuardianOut strategyOut energyOut weeklyOut : Except String Val) :
    Except String PyDict := do
  let r := baseResults tIso ctx
  let r ← tryStage visionOut (visionOk r) (visionErr r)
  let r ← tryStage nutritionOut (nutritionOk r) (nutritionErr r)
  let r ← tryStage personalizationOut (personalizationOk r) (personalizationErr r)
  let r ← tryStage wellnessOut (wellnessOk r) (wellnessErr r)
  let r ← tryStage driftOut (simpleStageOk r "drift_detection") (driftErr r)
  let r ← tryStage nextActionOut (simpleStageOk r "next_action") (simpleStageErr r "next_action")
  let r ← tryStage goalGuardianOut (simpleStageOk r "goal_guardian") (simpleStageErr r "goal_guardian")
  let r ← tryStage strategyOut (simpleStageOk r "strategy_adapter") (simpleStageErr r "strategy_adapter")
  let r ← tryStage energyOut (simpleStageOk r "energy_intervention") (simpleStageErr r "energy_intervention")
  let r ← tryStage weeklyOut (simpleStageOk r "weekly_reflection") (simpleStageErr r "weekly_reflection")
  pure (setKey r "disclaimer" (.str disclaimerText))

/-- The assembled result dict: `analyzeMeal` with every `try/except`
resolved (proved equal below). -/
def assembleMeal (tIso : String) (ctx : Option String)
    (visionOut nutritionOut personalizationOut wellnessOut driftOut nextActionOut
     goalGuardianOut strategyOut energyOut weeklyOut : Except String Val) : PyDict :=
  let r := baseResults tIso ctx
  let r := stage1 r visionOut
  let r := stage2 r nutritionOut
  let r := stage3 r personalizationOut
  let r := stage4 r wellnessOut
  let r := stage5 r driftOut
  let r := stageSimple r "next_action" nextActionOut
  let r := stageSimple r "goal_guardian" goalGuardianOut
  let r := stageSimple r "strategy_adapter" strategyOut
  let r := stageSimple r "energy_intervention" energyOut
  let r := stageSimple r "weekly_reflection" weeklyOut
  setKey r "disclaimer" (.str disclaimerText)

theorem okBind {α β : Type} (a : α) (f : α → Except String β) :
    (Except.ok a >>= f) = f a := rfl

theorem analyzeMeal_eq (tIso : String) (ctx : Option String)
    (v1 v2 v3 v4 v5 v6 v7 v8 v9 v10 : Except String Val) :
    analyzeMeal tIso ctx v1 v2 v3 v4 v5 v6 v7 v8 v9 v10 =
      .ok (assembleMeal tIso ctx v1 v2 v3 v4 v5 v6 v7 v8 v9 v10) := by
  simp only [analyzeMeal, assembleMeal, tryStage_stage1, tryStage_stage2,
    tryStage_stage3, tryStage_stage4, tryStage_stage5, tryStage_stageSimple, okBind]
  rfl

theorem getKey?_setKey_self (d : PyDict) (k : String) (v : Val) :
    getKey? (setKey d k v) k = some v := by
  induction d with
  | nil => simp [setKey, getKey?]
  | cons p rest ih =>
    obtain ⟨k', v'⟩ := p
    by_cases h : k' = k
    · simp [setKey, getKey?, h]
    · simp [setKey, getKey?, h, ih]

theorem getKey?_setKey_ne (d : PyDict) {k' k : String} (v : Val) (h : ¬ k' = k) :
    getKey? (setKey d k v) k' = getKey? d k' := by
  have hkk : ¬ k = k' := fun hh => h hh.symm
  induction d with
  | nil => simp [setKey, getKey?, hkk]
  | cons p rest ih =>
    obtain ⟨k'', v''⟩ := p
    by_cases hk : k'' = k
    · subst hk
      simp [setKey, getKey?, hkk]
    · simp only [setKey, if_neg hk, getKey?]
      by_cases hk' : k'' = k'
      · simp [hk']
      · simp [hk', ih]

theorem keysOf_setKey (d : PyDict) (k : String) (v : Val) :
    keysOf (setKey d k v) = if k ∈ keysOf d then keysOf d else keysOf d ++ [k] := by
  induction d with
  | nil => simp [setKey, keysOf]
  | cons p rest ih =>
    obtain ⟨k', v'⟩ := p
    by_cases h : k' = k
    · subst h
      simp [setKey, keysOf]
    · have hne : ¬ k = k' := fun hh => h hh.symm
      simp only [setKey, if_neg h, keysOf, List.map_cons]
      simp only [keysOf] at ih
      rw [ih]
      by_cases hm : k ∈ List.map Prod.fst rest
      · simp [List.mem_cons, hm, hne]
      · simp [List.mem_cons, hm, hne]

theorem agentsOf_setKey_ne (r : PyDict) {k : String} (v : Val)
    (h : ¬ ("agents" : String) = k) : agentsOf (setKey r k v) = agentsOf r := by
  unfold agentsOf
  rw [getKey?_setKey_ne r v h]

theorem agentsOf_setAgent (r : PyDict) (n : String) (v : Val) :
    agentsOf (setAgent r n v) = setKey (agentsOf r) n v := by
  unfold setAgent agentsOf
  rw [getKey?_setKey_self]

theorem getKey?_setAgent_ne (r : PyDict) (n : String) (v : Val) {k : String}
    (h : ¬ k = "agents") : getKey? (setAgent r n v) k = getKey? r k := by
  unfold setAgent
  rw [getKey?_setKey_ne _ _ h]

/-- The value a two-set stage (nutrition, personalization, wellness)
records under its promoted `<stage>_result` key: the stage output on
success, the documented default on failure. -/
def stageVal (out : Except String Val) (df : String → Val) : Val :=
  match out with
  | .ok v => v
  | .error e => df e

theorem stage_nutrition_result (r : PyDict) (out : Except String Val) :
    getKey? (stage2 r out) "nutrition_result" =
      some (stageVal out nutritionErrorDefault) := by
  cases out <;> simp [stage2, stageStep, nutritionOk, nutritionErr, stageVal, getKey?_setKey_self]

theorem stage_personalization_result (r : PyDict) (out : Except String Val) :
    getKey? (stage3 r out) "personalization_result" = some (stageVal out personalizationErrorDefault) := by
  cases out <;>
    simp [stage3, stageStep, personalizationOk, personalizationErr, stageVal, getKey?_setKey_self]

theorem stage_wellness_result (r : PyDict) (out : Except String Val) :
    getKey? (stage4 r out) "wellness_result" =
      some (stageVal out wellnessErrorDefault) := by
  cases out <;> simp [stage4, stageStep, wellnessOk, wellnessErr, stageVal, getKey?_setKey_self]

theorem stage_vision_result (r : PyDict) (out : Except String Val) :
    getKey? (stage1 r out) "vision_result" =
      some (stageVal out visionErrorDefault) := by
  cases out <;>
    · unfold stage1 stageStep visionOk visionErr stageVal
      rw [getKey?_setKey_ne _ _ (by simp), getKey?_setKey_self]

/-- The `confidence_score` string the vision stage records: derived from
the per-food confidences on success, "low" on failure. -/
def visionConfVal (out : Except String Val) : String :=
  match out with
  | .ok v => calculateOverallConfidence ((foodsOf v).map confidenceOfFood)
  | .error _ => "low"

theorem stage_vision_confidence (r : PyDict) (out : Except String Val) :
    getKey? (stage1 r out) "confidence_score" =
      some (.str (visionConfVal out)) := by
  cases out <;>
    · unfold stage1 stageStep visionOk visionErr visionConfVal
      rw [getKey?_setKey_self]

theorem stage_vision_preserve (r : PyDict) (out : Except String Val) {k : String}
    (h1 : ¬ k = "agents") (h2 : ¬ k = "vision_result") (h3 : ¬ k = "confidence_score") :
    getKey? (stage1 r out) k = getKey? r k := by
  cases out <;>
    · unfold stage1 stageStep visionOk visionErr
      rw [getKey?_setKey_ne _ _ h3, getKey?_setKey_ne _ _ h2, getKey?_setAgent_ne _ _ _ h1]

theorem stage_nutrition_preserve (r : PyDict) (out : Except String Val) {k : String}
    (h1 : ¬ k = "agents") (h2 : ¬ k = "nutrition_result") :
    getKey? (stage2 r out) k = getKey? r k := by
  cases out <;>
    · unfold stage2 stageStep nutritionOk nutritionErr
      rw [getKey?_setKey_ne _ _ h2, getKey?_setAgent_ne _ _ _ h1]

theorem stage_personalization_preserve (r : PyDict) (out : Except String Val) {k : String}
    (h1 : ¬ k = "agents") (h2 : ¬ k = "personalization_result") :
    getKey? (stage3 r out) k = getKey? r k := by
  cases out <;>
    · unfold stage3 stageStep personalizationOk personalizationErr
      rw [getKey?_setKey_ne _ _ h2, getKey?_setAgent_ne _ _ _ h1]

theorem stage_wellness_preserve (r : PyDict) (out : Except String Val) {k : String}
    (h1 : ¬ k = "agents") (h2 : ¬ k = "wellness_result") :
    getKey? (stage4 r out) k = getKey? r k := by
  cases out <;>
    · unfold stage4 stageStep wellnessOk wellnessErr
      rw [getKey?_setKey_ne _ _ h2, getKey?_setAgent_ne _ _ _ h1]

theorem stage_simple_preserve (r : PyDict) (out : Except String Val) (name : String)
    {k : String} (h1 : ¬ k = "agents") :
    getKey? (stageSimple r name out) k =
      getKey? r k := by
  cases out <;>
    · unfold stageSimple stageStep simpleStageOk simpleStageErr
      rw [getKey?_setAgent_ne _ _ _ h1]

theorem stage_drift_preserve (r : PyDict) (out : Except String Val) {k : String}
    (h1 : ¬ k = "agents") :
    getKey? (stage5 r out) k =
      getKey? r k := by
  cases out <;>
    · unfold stage5 stageStep simpleStageOk driftErr
      rw [getKey?_setAgent_ne _ _ _ h1]

theorem agentKeys_stage_vision (r : PyDict) (out : Except String Val) :
    agentKeys (stage1 r out) =
      if "vision" ∈ agentKeys r then agentKeys r else agentKeys r ++ ["vision"] := by
  cases out <;>
    · unfold stage1 stageStep visionOk visionErr agentKeys
      rw [agentsOf_setKey_ne _ _ (by simp), agentsOf_setKey_ne _ _ (by simp),
        agentsOf_setAgent, keysOf_setKey]

theorem agentKeys_stage_nutrition (r : PyDict) (out : Except String Val) :
    agentKeys (stage2 r out) =
      if "nutrition" ∈ agentKeys r then agentKeys r else agentKeys r ++ ["nutrition"] := by
  cases out <;>
    · unfold stage2 stageStep nutritionOk nutritionErr agentKeys
      rw [agentsOf_setKey_ne _ _ (by simp), agentsOf_setAgent, keysOf_setKey]

theorem agentKeys_stage_personalization (r : PyDict) (out : Except String Val) :
    agentKeys (stage3 r out) =
      if "personalization" ∈ agentKeys r then agentKeys r
      else agentKeys r ++ ["personalization"] := by
  cases out <;>
    · unfold stage3 stageStep personalizationOk personalizationErr agentKeys
      rw [agentsOf_setKey_ne _ _ (by simp), agentsOf_setAgent, keysOf_setKey]

theorem agentKeys_stage_wellness (r : PyDict) (out : Except String Val) :
    agentKeys (stage4 r out) =
      if "wellness" ∈ agentKeys r then agentKeys r else agentKeys r ++ ["wellness"] := by
  cases out <;>
    · unfold stage4 stageStep wellnessOk wellnessErr agentKeys
      rw [agentsOf_setKey_ne _ _ (by simp), agentsOf_setAgent, keysOf_setKey]

theorem agentKeys_stage_simple (r : PyDict) (out : Except String Val) (name : String) :
    agentKeys (stageSimple r name out) =
      if name ∈ agentKeys r then agentKeys r else agentKeys r ++ [name] := by
  cases out <;>
    · unfold stageSimple stageStep simpleStageOk simpleStageErr agentKeys
      rw [agentsOf_setAgent, keysOf_setKey]

theorem agentKeys_stage_drift (r : PyDict) (out : Except String Val) :
    agentKeys (stage5 r out) =
      if "drift_detection" ∈ agentKeys r then agentKeys r
      else agentKeys r ++ ["drift_detection"] := by
  cases out <;>
    · unfold stage5 stageStep simpleStageOk driftErr agentKeys
      rw [agentsOf_setAgent, keysOf_setKey]

theorem agentKeys_setKey_disclaimer (r : PyDict) (v : Val) :
    agentKeys (setKey r "disclaimer" v) = agentKeys r := by
  unfold agentKeys
  rw [agentsOf_setKey_ne _ _ (by simp)]

theorem agentKeys_base (tIso : String) (ctx : Option String) :
    agentKeys (baseResults tIso ctx) = [] := rfl

/-- C1: `analyze_meal` never raises — for every pattern of stage outcomes
(a vision client that always throws included) every stage exception is
caught at its stage boundary, the promoted nutrition, personalization and
wellness sub-results are always present (the documented default plus an
`error` field when the stage failed, as the trailing implications state,
including the vision default with confidence "low"), and the fixed
disclaimer string is always attached. -/
theorem analyze_meal_never_raises (tIso : String) (ctx : Option String)
    (v1 v2 v3 v4 v5 v6 v7 v8 v9 v10 : Except String Val) :
    ∃ d, analyzeMeal tIso ctx v1 v2 v3 v4 v5 v6 v7 v8 v9 v10 = .ok d
      ∧ getKey? d "nutrition_result" = some (stageVal v2 nutritionErrorDefault)
      ∧ getKey? d "personalization_result" = some (stageVal v3 personalizationErrorDefault)
      ∧ getKey? d "wellness_result" = some (stageVal v4 wellnessErrorDefault)
      ∧ getKey? d "disclaimer" = some (.str disclaimerText)
      ∧ (∀ e, v1 = .error e →
          getKey? d "vision_result" = some (visionErrorDefault e)
          ∧ getKey? d "confidence_score" = some (.str "low"))
      ∧ (∀ e, v2 = .error e →
          getKey? d "nutrition_result" = some (nutritionErrorDefault e))
      ∧ (∀ e, v3 = .error e →
          getKey? d "personalization_result" = some (personalizationErrorDefault e))
      ∧ (∀ e, v4 = .error e →
          getKey? d "wellness_result" = some (wellnessErrorDefault e)) := by
  refine ⟨assembleMeal tIso ctx v1 v2 v3 v4 v5 v6 v7 v8 v9 v10,
    analyzeMeal_eq tIso ctx v1 v2 v3 v4 v5 v6 v7 v8 v9 v10, ?_⟩
  simp only [assembleMeal]
  have hnut : getKey? (assembleMeal tIso ctx v1 v2 v3 v4 v5 v6 v7 v8 v9 v10)
      "nutrition_result" = some (stageVal v2 nutritionErrorDefault) := by
    simp only [assembleMeal]
    rw [getKey?_setKey_ne _ _ (by simp), stage_simple_preserve _ _ _ (by simp),
      stage_simple_preserve _ _ _ (by simp), stage_simple_preserve _ _ _ (by simp),
      stage_simple_preserve _ _ _ (by simp), stage_simple_preserve _ _ _ (by simp),
      stage_drift_preserve _ _ (by simp), stage_wellness_preserve _ _ (by simp) (by simp),
      stage_personalization_preserve _ _ (by simp) (by simp), stage_nutrition_result]
  have hpers : getKey? (assembleMeal tIso ctx v1 v2 v3 v4 v5 v6 v7 v8 v9 v10)
      "personalization_result" = some (stageVal v3 personalizationErrorDefault) := by
    simp only [assembleMeal]
    rw [getKey?_setKey_ne _ _ (by simp), stage_simple_preserve _ _ _ (by simp),
      stage_simple_preserve _ _ _ (by simp), stage_simple_preserve _ _ _ (by simp),
      stage_simple_preserve _ _ _ (by simp), stage_simple_preserve _ _ _ (by simp),
      stage_drift_preserve _ _ (by simp), stage_wellness_preserve _ _ (by simp) (by simp),
      stage_personalization_result]
  have hwell : getKey? (assembleMeal tIso ctx v1 v2 v3 v4 v5 v6 v7 v8 v9 v10)
      "wellness_result" = some (stageVal v4 wellnessErrorDefault) := by
    simp only [assembleMeal]
    rw [getKey?_setKey_ne _ _ (by simp), stage_simple_preserve _ _ _ (by simp),
      stage_simple_preserve _ _ _ (by simp), stage_simple_preserve _ _ _ (by simp),
      stage_simple_preserve _ _ _ (by simp), stage_simple_preserve _ _ _ (by simp),
      stage_drift_preserve _ _ (by simp), stage_wellness_result]
  have hvis : getKey? (assembleMeal tIso ctx v1 v2 v3 v4 v5 v6 v7 v8 v9 v10)
      "vision_result" = some (stageVal v1 visionErrorDefault) := by
    simp only [assembleMeal]
    rw [getKey?_setKey_ne _ _ (by simp), stage_simple_preserve _ _ _ (by simp),
      stage_simple_preserve _ _ _ (by simp), stage_simple_preserve _ _ _ (by simp),
      stage_simple_preserve _ _ _ (by simp), stage_simple_preserve _ _ _ (by simp),
      stage_drift_preserve _ _ (by simp), stage_wellness_preserve _ _ (by simp) (by simp),
      stage_personalization_preserve _ _ (by simp) (by simp),
      stage_nutrition_preserve _ _ (by simp) (by simp), stage_vision_result]
  have hconf : getKey? (assembleMeal tIso ctx v1 v2 v3 v4 v5 v6 v7 v8 v9 v10)
      "confidence_score" = some (.str (visionConfVal v1)) := by
    simp only [assembleMeal]
    rw [getKey?_setKey_ne _ _ (by simp), stage_simple_preserve _ _ _ (by simp),
      stage_simple_preserve _ _ _ (by simp), stage_simple_preserve _ _ _ (by simp),
      stage_simple_preserve _ _ _ (by simp), stage_simple_preserve _ _ _ (by simp),
      stage_drift_preserve _ _ (by simp), stage_wellness_preserve _ _ (by simp) (by simp),
      stage_personalization_preserve _ _ (by simp) (by simp),
      stage_nutrition_preserve _ _ (by simp) (by simp), stage_vision_confidence]
  have hdisc : getKey? (assembleMeal tIso ctx v1 v2 v3 v4 v5 v6 v7 v8 v9 v10)
      "disclaimer" = some (.str disclaimerText) := by
    simp only [assembleMeal]
    rw [getKey?_setKey_self]
  simp only [assembleMeal] at hnut hpers hwell hvis hconf hdisc
  refine ⟨hnut, hpers, hwell, hdisc, ?_, ?_, ?_, ?_⟩
  · intro e he
    subst he
    exact ⟨hvis, hconf⟩
  · intro e he
    subst he
    exact hnut
  · intro e he
    subst he
    exact hpers
  · intro e he
    subst he
    exact hwell

/-- C1 witness: every stage client throws, and the degraded defaults plus
the fixed disclaimer are still returned. -/
theorem analyze_meal_never_raises_witness :
    ∃ d, analyzeMeal "2024-03-01T12:00:00" none (.error "vision down")
        (.error "nutrition down") (.error "personalization down")
        (.error "wellness down") (.error "drift down") (.error "next down")
        (.error "guardian down") (.error "strategy down") (.error "energy down")
        (.error "weekly down") = .ok d
      ∧ getKey? d "nutrition_result" =
          some (stageVal (.error "nutrition down") nutritionErrorDefault)
      ∧ getKey? d "personalization_result" =
          some (stageVal (.error "personalization down") personalizationErrorDefault)
      ∧ getKey? d "wellness_result" =
          some (stageVal (.error "wellness down") wellnessErrorDefault)
      ∧ getKey? d "disclaimer" = some (.str disclaimerText)
      ∧ (∀ e, (Except.error "vision down" : Except String Val) = .error e →
          getKey? d "vision_result" = some (visionErrorDefault e)
          ∧ getKey? d "confidence_score" = some (.str "low"))
      ∧ (∀ e, (Except.error "nutrition down" : Except String Val) = .error e →
          getKey? d "nutrition_result" = some (nutritionErrorDefault e))
      ∧ (∀ e, (Except.error "personalization down" : Except String Val) = .error e →
          getKey? d "personalization_result" = some (personalizationErrorDefault e))
      ∧ (∀ e, (Except.error "wellness down" : Except String Val) = .error e →
          getKey? d "wellness_result" = some (wellnessErrorDefault e)) :=
  analyze_meal_never_raises "2024-03-01T12:00:00" none (.error "vision down")
    (.error "nutrition down") (.error "personalization down") (.error "wellness down")
    (.error "drift down") (.error "next down") (.error "guardian down")
    (.error "strategy down") (.error "energy down") (.error "weekly down")

/-- C9: for every pattern of stage successes and failures the returned
mapping's `agents` sub-dict has exactly the ten stage slots, in pipeline
order — each holding either the stage's result or its failure marker; no
slot is ever absent. -/
theorem analyze_meal_all_slots (tIso : String) (ctx : Option String)
    (v1 v2 v3 v4 v5 v6 v7 v8 v9 v10 : Except String Val) :
    ∃ d, analyzeMeal tIso ctx v1 v2 v3 v4 v5 v6 v7 v8 v9 v10 = .ok d
      ∧ agentKeys d = ["vision", "nutrition", "personalization", "wellness",
          "drift_detection", "next_action", "goal_guardian", "strategy_adapter",
          "energy_intervention", "weekly_reflection"] := by
  refine ⟨assembleMeal tIso ctx v1 v2 v3 v4 v5 v6 v7 v8 v9 v10,
    analyzeMeal_eq tIso ctx v1 v2 v3 v4 v5 v6 v7 v8 v9 v10, ?_⟩
  simp only [assembleMeal]
  set r0 := baseResults tIso ctx with hr0
  set r1 := stage1 r0 v1 with hr1
  set r2 := stage2 r1 v2 with hr2
  set r3 := stage3 r2 v3 with hr3
  set r4 := stage4 r3 v4 with hr4
  set r5 := stage5 r4 v5 with hr5
  set r6 := stageSimple r5 "next_action" v6 with hr6
  set r7 := stageSimple r6 "goal_guardian" v7 with hr7
  set r8 := stageSimple r7 "strategy_adapter" v8 with hr8
  set r9 := stageSimple r8 "energy_intervention" v9 with hr9
  set r10 := stageSimple r9 "weekly_reflection" v10 with hr10
  have k0 : agentKeys r0 = [] := by rw [hr0]; rfl
  have k1 : agentKeys r1 = ["vision"] := by
    rw [hr1, agentKeys_stage_vision, k0]; simp
  have k2 : agentKeys r2 = ["vision", "nutrition"] := by
    rw [hr2, agentKeys_stage_nutrition, k1]; simp
  have k3 : agentKeys r3 = ["vision", "nutrition", "personalization"] := by
    rw [hr3, agentKeys_stage_personalization, k2]; simp
  have k4 : agentKeys r4 = ["vision", "nutrition", "personalization", "wellness"] := by
    rw [hr4, agentKeys_stage_wellness, k3]; simp
  have k5 : agentKeys r5 = ["vision", "nutrition", "personalization", "wellness",
      "drift_detection"] := by
    rw [hr5, agentKeys_stage_drift, k4]; simp
  have k6 : agentKeys r6 = ["vision", "nutrition", "personalization", "wellness",
      "drift_detection", "next_action"] := by
    rw [hr6, agentKeys_stage_simple, k5]; simp
  have k7 : agentKeys r7 = ["vision", "nutrition", "personalization", "wellness",
      "drift_detection", "next_action", "goal_guardian"] := by
    rw [hr7, agentKeys_stage_simple, k6]; simp
  have k8 : agentKeys r8 = ["vision", "nutrition", "personalization", "wellness",
      "drift_detection", "next_action", "goal_guardian", "strategy_adapter"] := by
    rw [hr8, agentKeys_stage_simple, k7]; simp
  have k9 : agentKeys r9 = ["vision", "nutrition", "personalization", "wellness",
      "drift_detection", "next_action", "goal_guardian", "strategy_adapter",
      "energy_intervention"] := by
    rw [hr9, agentKeys_stage_simple, k8]; simp
  have k10 : agentKeys r10 = ["vision", "nutrition", "personalization", "wellness",
      "drift_detection", "next_action", "goal_guardian", "strategy_adapter",
      "energy_intervention", "weekly_reflection"] := by
    rw [hr10, agentKeys_stage_simple, k9]; simp
  rw [agentKeys_setKey_disclaimer, k10]

end CalorieLens
